import Mathlib

/-!
Verification of the TaskTrack-AP task domain (tasks.py, strategies.py,
facade.py) as a shallow embedding in Lean 4.

Conventions of the embedding:
* Timestamps are integers counting microseconds (the resolution of Python's
  `datetime`) since the Unix epoch.  `datetime.utcnow()` is modelled by an
  explicit `now : Int` parameter.
* `timedelta(minutes=m)` is `m * usPerMinute` microseconds.
* Loosely-typed JSON / keyword-argument values are modelled by `PyVal`
  (integer, float — carried exactly as a rational —, string, None).
* Python's builtin `int(x)` is modelled by `pyInt`: identity on integers,
  truncation toward zero on floats, digit-string parsing on strings
  (optional sign followed by digits), `TypeError` on `None`.
* Exceptions are modelled with `Except PyErr`; the repository state is
  passed explicitly.
* Python's `sorted(key=k)` is a stable sort by `k`; a stable sort by a total
  preorder is extensionally unique, so it is embedded as
  `List.insertionSort` with the relation `k a ≤ k b` (and `k b ≤ k a` for
  `reverse=True`, whose documented behaviour keeps equal elements in their
  original order).
-/

deriving instance DecidableEq for Except

namespace TaskTrack

/-- Python exception kinds raised by the code under study. -/
inductive PyErr where
  | keyError
  | valueError
  | typeError
deriving DecidableEq

/-- Loosely-typed values arriving from JSON bodies / keyword arguments. -/
inductive PyVal where
  | vint (n : Int)
  | vfloat (q : ℚ)
  | vstr (s : String)
  | vnone
deriving DecidableEq

/-- The characters C's `isspace` recognises (tab, LF, VT, FF, CR, space):
exactly the whitespace CPython's `int(str)` strips around the literal. -/
def pySpace (c : Char) : Bool :=
  c.toNat = 32 || (9 ≤ c.toNat && c.toNat ≤ 13)

/-- Accumulating decimal-digit parser, the first digit already consumed
into `acc`: further digits extend the value, a single underscore is
allowed between two digits (as in CPython's grouped literals such as
`1_000`), anything else rejects. -/
def parseDigitsAux (acc : Nat) : List Char → Option Nat
  | [] => some acc
  | [c] => if c.isDigit then some (10 * acc + (c.toNat - 48)) else none
  | c :: d :: ds =>
    if c.isDigit then parseDigitsAux (10 * acc + (c.toNat - 48)) (d :: ds)
    else if c == '_' && d.isDigit then parseDigitsAux (10 * acc + (d.toNat - 48)) ds
    else none

/-- A nonempty run of decimal digits with optional single underscores
between digits; must start with a digit (no leading or trailing
underscore, no doubled underscore). -/
def parseDigitsBody : List Char → Option Nat
  | [] => none
  | c :: cs => if c.isDigit then parseDigitsAux (c.toNat - 48) cs else none

/-- Python's `int(string)` on ASCII input: surrounding C-whitespace is
stripped, then an optional sign directly precedes a nonempty run of
decimal digits with single underscores allowed between digits. The
non-ASCII forms CPython also accepts (Unicode digits and Unicode
whitespace) are outside the model. -/
def pyIntOfStr (s : String) : Option Int :=
  let t := ((s.data.dropWhile pySpace).reverse.dropWhile pySpace).reverse
  match t with
  | [] => none
  | c :: cs =>
    if c == '-' then (parseDigitsBody cs).map (fun n => -(n : Int))
    else if c == '+' then (parseDigitsBody cs).map (fun n => (n : Int))
    else (parseDigitsBody (c :: cs)).map (fun n => (n : Int))

/-- Python's builtin `int(x)`: identity on int, truncation toward zero on
float (numerator `tdiv` denominator), integer-literal parsing on strings
(`ValueError` otherwise), `TypeError` on `None`. -/
def pyInt : PyVal → Except PyErr Int
  | .vint n => .ok n
  | .vfloat q => .ok (q.num.tdiv q.den)
  | .vstr s =>
    match pyIntOfStr s with
    | some n => .ok n
    | none => .error .valueError
  | .vnone => .error .typeError

/-- Python's `str.lower()`, as a character-by-character map. -/
def pyLower (s : String) : String :=
  String.mk (s.data.map Char.toLower)

/-- Microseconds in one minute (`timedelta(minutes=1)`). -/
def usPerMinute : Int := 60000000

/-- The task hierarchy of tasks.py: the base class `Task` carries
`title`, `created_at` and `done`; `PriorityTask` adds `priority`;
`DeadlineTask` adds `deadline`. -/
inductive Task where
  | simple (title : String) (created_at : Int) (done : Bool)
  | priority (title : String) (created_at : Int) (done : Bool) (priority : Int)
  | deadline (title : String) (created_at : Int) (done : Bool) (deadline : Int)
deriving DecidableEq

/-- Base-class field `title`. -/
def Task.title : Task → String
  | .simple t _ _ => t
  | .priority t _ _ _ => t
  | .deadline t _ _ _ => t

/-- Base-class field `created_at` (set from `datetime.utcnow()`). -/
def Task.created_at : Task → Int
  | .simple _ c _ => c
  | .priority _ c _ _ => c
  | .deadline _ c _ _ => c

/-- Base-class field `done` (initialised to `False`). -/
def Task.done : Task → Bool
  | .simple _ _ d => d
  | .priority _ _ d _ => d
  | .deadline _ _ d _ => d

/-- The `deadline` attribute when present (`hasattr(task, 'deadline')`). -/
def Task.deadlineVal : Task → Option Int
  | .deadline _ _ _ d => some d
  | _ => none

/-- The `priority` attribute when present. -/
def Task.priorityVal : Task → Option Int
  | .priority _ _ _ p => some p
  | _ => none

/-- Constructor `SimpleTask(title)`: sets `created_at = utcnow()`,
`done = False`. -/
def SimpleTask.init (title : String) (now : Int) : Task :=
  .simple title now false

/-- Constructor `PriorityTask(title, priority)`. -/
def PriorityTask.init (title : String) (now : Int) (p : Int) : Task :=
  .priority title now false p

/-- Constructor `DeadlineTask(title, minutes_from_now)`:
`deadline = created_at + timedelta(minutes=minutes_from_now)`. -/
def DeadlineTask.init (title : String) (now : Int) (minutes_from_now : Int) : Task :=
  .deadline title now false (now + minutes_from_now * usPerMinute)

/-- Values appearing in a task's dictionary serialization: strings,
ISO-formatted timestamps (kept as the underlying instant), integers and
booleans. -/
inductive DVal where
  | str (s : String)
  | time (t : Int)
  | int (n : Int)
  | bool (b : Bool)
deriving DecidableEq

/-- `Task.to_dict` of the base class: keys `type`, `title`, `created_at`,
`done` in this order. -/
def Task.baseDict (cls : String) (title : String) (created_at : Int) (done : Bool) :
    List (String × DVal) :=
  [("type", .str cls), ("title", .str title),
   ("created_at", .time created_at), ("done", .bool done)]

/-- `to_dict`: the base mapping, plus `priority` (for `PriorityTask`) or
`deadline` (for `DeadlineTask`) appended by the subclass overrides. -/
def Task.to_dict : Task → List (String × DVal)
  | .simple t c d => Task.baseDict "SimpleTask" t c d
  | .priority t c d p => Task.baseDict "PriorityTask" t c d ++ [("priority", .int p)]
  | .deadline t c d dl => Task.baseDict "DeadlineTask" t c d ++ [("deadline", .time dl)]

/-- The keyword arguments `create_task` reads: `title` (fetched with
`kwargs["title"]`, so absence is a `KeyError`), `priority` and
`minutes_from_now` (fetched with `kwargs.get(..., default)`). -/
structure Kwargs where
  title : Option String
  priority : Option PyVal
  minutes_from_now : Option PyVal
deriving DecidableEq

/-- `kwargs["title"]`: `KeyError` when the key is absent. -/
def Kwargs.getTitle (kw : Kwargs) : Except PyErr String :=
  match kw.title with
  | some t => .ok t
  | none => .error .keyError

/-- `TaskFactory.create_task`: lowercases `(task_type or "")`, dispatches on
`"simple"` / `"priority"` / `"deadline"`, and falls back to `SimpleTask`
for any other value. -/
def TaskFactory.create_task (now : Int) (task_type : Option String) (kw : Kwargs) :
    Except PyErr Task :=
  let tt := pyLower (task_type.getD "")
  if tt = "simple" then
    (kw.getTitle).map (fun title => SimpleTask.init title now)
  else if tt = "priority" then do
    let title ← kw.getTitle
    let p ← pyInt (kw.priority.getD (.vint 1))
    pure (PriorityTask.init title now p)
  else if tt = "deadline" then do
    let title ← kw.getTitle
    let m ← pyInt (kw.minutes_from_now.getD (.vint 30))
    pure (DeadlineTask.init title now m)
  else
    (kw.getTitle).map (fun title => SimpleTask.init title now)

/-- `TaskRepository.add`: appends to the end of the stored list. -/
def TaskRepository.add (tasks : List Task) (t : Task) : List Task :=
  tasks ++ [t]

/-- `TaskRepository.get_all`: returns a copy of the stored list (same
value). -/
def TaskRepository.get_all (tasks : List Task) : List Task :=
  tasks

/-- `TaskRepository.count`. -/
def TaskRepository.count (tasks : List Task) : Nat :=
  tasks.length

/-- `TaskManager.create_task`: first the factory runs (an exception there
propagates before the repository is touched), then `repository.add`. The
pair holds the returned task (or the propagated error) and the repository
state after the call. -/
def TaskManager.create_task (repo : List Task) (now : Int) (task_type : Option String)
    (kw : Kwargs) : Except PyErr Task × List Task :=
  match TaskFactory.create_task now task_type kw with
  | .error e => (.error e, repo)
  | .ok t => (.ok t, TaskRepository.add repo t)

/-- `TaskManager.list_tasks`: all stored tasks in dictionary form. -/
def TaskManager.list_tasks (repo : List Task) : List (List (String × DVal)) :=
  (TaskRepository.get_all repo).map Task.to_dict

/-- The sort key of `PrioritySortStrategy`: `getattr(task, 'priority', 0)`. -/
def priorityKey : Task → Int
  | .priority _ _ _ p => p
  | _ => 0

/-- The sentinel `datetime(2099, 12, 31)` used by `DeadlineSortStrategy` for
tasks without a deadline, in microseconds since the Unix epoch
(47481 days). -/
def farFutureUs : Int := 4102358400000000

/-- The sort key of `DeadlineSortStrategy`: the task's `deadline` when
present, else the far-future sentinel. -/
def deadlineKey : Task → Int
  | .deadline _ _ _ d => d
  | _ => farFutureUs

/-- Comparison used by `PrioritySortStrategy`: `sorted(key=priority_key,
reverse=True)` is the stable descending order, i.e. `a` may precede `b`
iff `priority_key b ≤ priority_key a`. -/
def priorityRel (a b : Task) : Prop := priorityKey b ≤ priorityKey a

instance : DecidableRel priorityRel := fun _ _ => Int.decLe _ _

instance : IsTotal Task priorityRel := ⟨fun a b => Int.le_total (priorityKey b) (priorityKey a)⟩

instance : IsTrans Task priorityRel := ⟨fun _ _ _ h1 h2 => le_trans h2 h1⟩

/-- Comparison used by `DeadlineSortStrategy`: stable ascending order by
`deadline_key`. -/
def deadlineRel (a b : Task) : Prop := deadlineKey a ≤ deadlineKey b

instance : DecidableRel deadlineRel := fun _ _ => Int.decLe _ _

instance : IsTotal Task deadlineRel := ⟨fun a b => Int.le_total (deadlineKey a) (deadlineKey b)⟩

instance : IsTrans Task deadlineRel := ⟨fun _ _ _ h1 h2 => le_trans h1 h2⟩

/-- Comparison used by `CreationSortStrategy`: `sorted(key=created_at,
reverse=True)`, the stable descending order by creation time. -/
def creationRel (a b : Task) : Prop := Task.created_at b ≤ Task.created_at a

instance : DecidableRel creationRel := fun _ _ => Int.decLe _ _

instance : IsTotal Task creationRel := ⟨fun a b => Int.le_total (Task.created_at b) (Task.created_at a)⟩

instance : IsTrans Task creationRel := ⟨fun _ _ _ h1 h2 => le_trans h2 h1⟩

/-- `PrioritySortStrategy.sort`: stable sort, higher priority first. -/
def PrioritySortStrategy.sort (tasks : List Task) : List Task :=
  tasks.insertionSort priorityRel

/-- `DeadlineSortStrategy.sort`: stable sort, earlier deadline first,
missing deadlines keyed to the far-future sentinel. -/
def DeadlineSortStrategy.sort (tasks : List Task) : List Task :=
  tasks.insertionSort deadlineRel

/-- `CreationSortStrategy.sort`: stable sort, most recent creation first. -/
def CreationSortStrategy.sort (tasks : List Task) : List Task :=
  tasks.insertionSort creationRel

/-- `DefaultSortStrategy.sort`: `list(tasks)`, the same sequence of
elements in unchanged order. -/
def DefaultSortStrategy.sort (tasks : List Task) : List Task :=
  tasks

/-- The four registered strategies of `TaskSorter._strategies`. -/
inductive Strategy where
  | priority
  | deadline
  | creation
  | default
deriving DecidableEq

/-- `get_name` of each strategy. -/
def Strategy.get_name : Strategy → String
  | .priority => "priority"
  | .deadline => "deadline"
  | .creation => "creation"
  | .default => "default"

/-- `sort` dispatched through the strategy interface. -/
def Strategy.sort : Strategy → List Task → List Task
  | .priority => PrioritySortStrategy.sort
  | .deadline => DeadlineSortStrategy.sort
  | .creation => CreationSortStrategy.sort
  | .default => DefaultSortStrategy.sort

/-- `TaskSorter.set_strategy`: looks up `strategy_name.lower()` in the
strategy dictionary and falls back to the default strategy when the key is
unknown. -/
def TaskSorter.set_strategy (strategy_name : String) : Strategy :=
  let s := pyLower strategy_name
  if s = "priority" then .priority
  else if s = "deadline" then .deadline
  else if s = "creation" then .creation
  else if s = "default" then .default
  else .default

/-- The JSON body of a `deploy` request: each key optionally present. The
`title` and `task_type` values are taken as strings, the numeric
parameters as loosely-typed `PyVal`. -/
structure Request where
  title : Option String
  task_type : Option String
  priority : Option PyVal
  minutes_from_now : Option PyVal
deriving DecidableEq

/-- The envelope returned by `deploy_activity`. -/
structure DeployResponse where
  status : String
  message : String
  created_task : List (String × DVal)
deriving DecidableEq

/-- The envelope returned by `list_tasks`. -/
structure ListResponse where
  tasks : List (List (String × DVal))
  count : Nat
  sorted_by : String
deriving DecidableEq

/-- `TaskTrackFacade.deploy_activity`: reads `title` (default "Tarefa
inicial do plano"), `task_type` (default "simple"), `priority` (default 1)
and `minutes_from_now` (default 30) from the request, creates a task via
the manager, and returns the status envelope with the serialized task.
The pair holds the response (or propagated error) and the repository state
after the call. -/
def TaskTrackFacade.deploy_activity (repo : List Task) (now : Int) (req : Request) :
    Except PyErr DeployResponse × List Task :=
  let title := req.title.getD "Tarefa inicial do plano"
  let tt := req.task_type.getD "simple"
  let kw : Kwargs :=
    { title := some title
      priority := some (req.priority.getD (.vint 1))
      minutes_from_now := some (req.minutes_from_now.getD (.vint 30)) }
  match TaskManager.create_task repo now (some tt) kw with
  | (.error e, r) => (.error e, r)
  | (.ok t, r) =>
    (.ok { status := "ok"
           message := "Deploy realizado via Facade + Factory Method."
           created_task := t.to_dict }, r)

/-- `TaskTrackFacade.list_tasks`: selects the strategy from `sort_by`,
sorts all manager tasks, and returns the serialized list, its count and
the resolved strategy name. -/
def TaskTrackFacade.list_tasks (repo : List Task) (sort_by : String) : ListResponse :=
  let strat := TaskSorter.set_strategy sort_by
  let sorted_tasks := strat.sort (TaskRepository.get_all repo)
  { tasks := sorted_tasks.map Task.to_dict
    count := (sorted_tasks.map Task.to_dict).length
    sorted_by := strat.get_name }

/-- A sequence of `deploy_activity` calls (each with its observed clock
value and request body), threading the repository state; stops at the
first propagated exception. -/
def deployAll (repo : List Task) : List (Int × Request) → Except PyErr (List Task)
  | [] => .ok repo
  | (now, req) :: rest =>
    match TaskTrackFacade.deploy_activity repo now req with
    | (.ok _, r) => deployAll r rest
    | (.error e, _) => .error e

/-- A heap of list objects, for observing aliasing: Python list values
identified by their allocation index. -/
abbrev Heap := List (List Task)

/-- Allocation of a fresh list object at the next free index. -/
def Heap.alloc (h : Heap) (v : List Task) : Heap × Nat :=
  (h ++ [v], h.length)

/-- Reading the list object behind a reference. -/
def Heap.read (h : Heap) (r : Nat) : List Task :=
  List.getD h r []

/-- A strategy's `sort` as it acts on the heap: `sorted(...)` (and
`list(...)` in the default strategy) reads the input list object and
allocates a new list holding the ordered sequence; no existing object is
written. -/
def Strategy.sortAlloc (st : Strategy) (h : Heap) (r : Nat) : Heap × Nat :=
  h.alloc (st.sort (h.read r))

/-- Truncation toward zero on an exact rational, the value Python's
`int(float)` produces. -/
def specTrunc (q : ℚ) : Int :=
  if 0 ≤ q then ⌊q⌋ else ⌈q⌉

/-- The ordering property claimed for the deadline strategy: in the output,
whenever `b` (carrying a deadline) comes somewhere after `a`, then `a`
carries a deadline as well and it is not later — i.e. deadline-less tasks
come after all deadline-carrying ones and deadlines ascend. -/
def deadlineOrderOk (l : List Task) : Prop :=
  List.Pairwise
    (fun a b => ∀ db, Task.deadlineVal b = some db →
      ∃ da, Task.deadlineVal a = some da ∧ da ≤ db)
    (DeadlineSortStrategy.sort l)

/-!
General lemmas shared by the claim theorems.
-/

/-- Every strategy returns a list of the same length. -/
theorem Strategy.sort_length (st : Strategy) (l : List Task) :
    (st.sort l).length = l.length := by
  cases st <;>
    simp [Strategy.sort, PrioritySortStrategy.sort, DeadlineSortStrategy.sort,
      CreationSortStrategy.sort, DefaultSortStrategy.sort, List.length_insertionSort]

/-- Every strategy returns a permutation of its input. -/
theorem Strategy.sort_perm (st : Strategy) (l : List Task) :
    List.Perm (st.sort l) l := by
  cases st <;>
    simp [Strategy.sort, PrioritySortStrategy.sort, DeadlineSortStrategy.sort,
      CreationSortStrategy.sort, DefaultSortStrategy.sort, List.perm_insertionSort]

/-- A present `deadline` attribute is what `deadline_key` returns. -/
theorem deadlineKey_of_some {t : Task} {d : Int} (h : Task.deadlineVal t = some d) :
    deadlineKey t = d := by
  cases t
  case deadline => simp [Task.deadlineVal] at h; simp [deadlineKey, h]
  all_goals simp [Task.deadlineVal] at h

/-- A missing `deadline` attribute is keyed to the far-future sentinel. -/
theorem deadlineKey_of_none {t : Task} (h : Task.deadlineVal t = none) :
    deadlineKey t = farFutureUs := by
  cases t <;> simp [Task.deadlineVal] at h <;> simp [deadlineKey]

/-- Truncating division of numerator by denominator is truncation toward
zero of the rational value. -/
theorem tdiv_num_den_eq_specTrunc (q : ℚ) : q.num.tdiv q.den = specTrunc q := by
  unfold specTrunc
  by_cases hq : 0 ≤ q
  · rw [if_pos hq, Rat.floor_def]
    exact Int.tdiv_eq_ediv (Rat.num_nonneg.mpr hq) (Int.ofNat_nonneg _)
  · rw [if_neg hq]
    have hnum : ¬ (0 ≤ q.num) := fun hc => hq (Rat.num_nonneg.mp hc)
    have hceil : ⌈q⌉ = -⌊-q⌋ := by rw [Int.floor_neg]; ring
    have hden : (((-q).den : Int)) = q.den := by simp [Rat.neg_den]
    rw [hceil, Rat.floor_def, Rat.num_neg_eq_neg_num, hden]
    calc q.num.tdiv q.den = -((-q.num).tdiv q.den) := by rw [Int.neg_tdiv, neg_neg]
      _ = -(-q.num / q.den) := by
          rw [Int.tdiv_eq_ediv (by omega) (Int.ofNat_nonneg _)]

/-- A successful `deploy_activity` call appends exactly the created task. -/
theorem deploy_activity_ok {repo : List Task} {now : Int} {req : Request}
    {d : DeployResponse} {r : List Task}
    (h : TaskTrackFacade.deploy_activity repo now req = (.ok d, r)) :
    ∃ t, r = repo ++ [t] ∧ d.created_task = t.to_dict := by
  cases hf : TaskFactory.create_task now (some (req.task_type.getD "simple"))
      { title := some (req.title.getD "Tarefa inicial do plano")
        priority := some (req.priority.getD (.vint 1))
        minutes_from_now := some (req.minutes_from_now.getD (.vint 30)) } with
  | error e =>
    simp [TaskTrackFacade.deploy_activity, TaskManager.create_task, hf] at h
  | ok t =>
    simp [TaskTrackFacade.deploy_activity, TaskManager.create_task,
      TaskRepository.add, hf] at h
    exact ⟨t, h.2.symm, by simp [← h.1]⟩

/-- Length invariant of a run of successful deploys. -/
theorem deployAll_length (reqs : List (Int × Request)) :
    ∀ repo repo' : List Task, deployAll repo reqs = .ok repo' →
      repo'.length = repo.length + reqs.length := by
  induction reqs with
  | nil =>
    intro repo repo' h
    simp [deployAll] at h
    simp [← h]
  | cons p rest ih =>
    intro repo repo' h
    obtain ⟨now, req⟩ := p
    unfold deployAll at h
    cases hd : TaskTrackFacade.deploy_activity repo now req with
    | mk res r =>
      rw [hd] at h
      cases res with
      | error e => simp at h
      | ok d =>
        obtain ⟨t, ht, -⟩ := deploy_activity_ok hd
        have := ih r repo' h
        simp [this, ht]
        omega

/-!
Claim theorems.
-/

/-- C1: for every `task_type` string whose lowercase form is none of
"simple", "priority", "deadline" — the empty string included —
`TaskFactory.create_task` with a `title` argument returns a `SimpleTask`
carrying that title and raises no error. -/
theorem c1_unknown_task_type_falls_back_to_simple
    (s : String) (h : pyLower s ∉ ["simple", "priority", "deadline"])
    (title : String) (now : Int) (pr mfn : Option PyVal) :
    TaskFactory.create_task now (some s) ⟨some title, pr, mfn⟩ =
      .ok (SimpleTask.init title now) := by
  obtain ⟨h1, h2, h3⟩ : pyLower s ≠ "simple" ∧ pyLower s ≠ "priority" ∧ pyLower s ≠ "deadline" := by
    simpa using h
  simp [TaskFactory.create_task, h1, h2, h3, Kwargs.getTitle, Except.map]

/-- Witness for C1 at the concrete unrecognized type "Nota". -/
theorem c1_witness :
    pyLower "Nota" ∉ (["simple", "priority", "deadline"] : List String) ∧
    TaskFactory.create_task 7 (some "Nota") ⟨some "todo", some (.vint 3), none⟩ =
      .ok (SimpleTask.init "todo" 7) :=
  ⟨by decide, c1_unknown_task_type_falls_back_to_simple "Nota" (by decide) "todo" 7 _ _⟩

/-- C2: for every sort key whose lowercase form is not one of the four
registered names, `list_tasks` returns the tasks in unchanged insertion
order and reports the resolved strategy name "default". -/
theorem c2_unknown_sort_key_resolves_to_default
    (s : String) (h : pyLower s ∉ ["priority", "deadline", "creation", "default"])
    (repo : List Task) :
    (TaskTrackFacade.list_tasks repo s).tasks = repo.map Task.to_dict ∧
    (TaskTrackFacade.list_tasks repo s).sorted_by = "default" := by
  obtain ⟨h1, h2, h3, h4⟩ :
      pyLower s ≠ "priority" ∧ pyLower s ≠ "deadline" ∧
      pyLower s ≠ "creation" ∧ pyLower s ≠ "default" := by simpa using h
  simp [TaskTrackFacade.list_tasks, TaskSorter.set_strategy, TaskRepository.get_all,
    Strategy.sort, DefaultSortStrategy.sort, Strategy.get_name, h1, h2, h3, h4]

/-- Witness for C2 at the concrete unknown key "ALEATORIO". -/
theorem c2_witness :
    pyLower "ALEATORIO" ∉ (["priority", "deadline", "creation", "default"] : List String) ∧
    (TaskTrackFacade.list_tasks [SimpleTask.init "a" 0, SimpleTask.init "b" 1] "ALEATORIO").tasks =
      [SimpleTask.init "a" 0, SimpleTask.init "b" 1].map Task.to_dict ∧
    (TaskTrackFacade.list_tasks [SimpleTask.init "a" 0, SimpleTask.init "b" 1] "ALEATORIO").sorted_by =
      "default" := by
  refine ⟨by decide, ?_, ?_⟩
  · exact (c2_unknown_sort_key_resolves_to_default "ALEATORIO" (by decide) _).1
  · exact (c2_unknown_sort_key_resolves_to_default "ALEATORIO" (by decide) _).2

/-- C3: task creation is atomic — whenever `TaskManager.create_task`
propagates an exception, the repository holds exactly the same sequence as
before the call. -/
theorem c3_create_task_atomic
    (repo : List Task) (now : Int) (task_type : Option String) (kw : Kwargs) (e : PyErr)
    (h : (TaskManager.create_task repo now task_type kw).1 = .error e) :
    (TaskManager.create_task repo now task_type kw).2 = repo := by
  unfold TaskManager.create_task at h ⊢
  cases hf : TaskFactory.create_task now task_type kw <;> simp [hf] at h ⊢

/-- Witness for C3 at a failing input (missing `title`). -/
theorem c3_witness :
    (TaskManager.create_task [SimpleTask.init "x" 0] 1 (some "simple") ⟨none, none, none⟩).1 =
      .error .keyError ∧
    (TaskManager.create_task [SimpleTask.init "x" 0] 1 (some "simple") ⟨none, none, none⟩).2 =
      [SimpleTask.init "x" 0] :=
  ⟨by decide, c3_create_task_atomic [SimpleTask.init "x" 0] 1 (some "simple")
    ⟨none, none, none⟩ .keyError (by decide)⟩

/-- C7: a `DeadlineTask` deadline is `created_at` plus exactly
`minutes_from_now` minutes; it is strictly later than `created_at` iff the
offset is positive, with no clamping for non-positive offsets. -/
theorem c7_deadline_exact_offset (title : String) (now m : Int) :
    (DeadlineTask.init title now m).created_at = now ∧
    Task.deadlineVal (DeadlineTask.init title now m) = some (now + m * usPerMinute) ∧
    (0 < m → now < now + m * usPerMinute) ∧
    (m ≤ 0 → now + m * usPerMinute ≤ now) := by
  refine ⟨rfl, rfl, fun h => ?_, fun h => ?_⟩ <;> simp only [usPerMinute] <;> nlinarith

/-- Witness for C7 at `minutes_from_now = 30` and `= -2`. -/
theorem c7_witness :
    Task.deadlineVal (DeadlineTask.init "Relatorio" 100 30) = some (100 + 30 * usPerMinute) ∧
    (100 : Int) < 100 + 30 * usPerMinute ∧
    (200 : Int) + (-2) * usPerMinute ≤ 200 :=
  ⟨(c7_deadline_exact_offset "Relatorio" 100 30).2.1,
   (c7_deadline_exact_offset "Relatorio" 100 30).2.2.1 (by decide),
   (c7_deadline_exact_offset "Plano" 200 (-2)).2.2.2 (by decide)⟩

/-- C4, counterexample to the claim as stated: the fractional value 5/2
supplied as `priority` does not fail — `int(2.5)` truncates, and the task
is created with priority 2. -/
theorem c4_counterexample_fractional_is_truncated :
    TaskFactory.create_task 0 (some "priority")
      ⟨some "relatorio", some (.vfloat (Rat.mk' 5 2 (by decide) (by decide))), none⟩ =
      .ok (PriorityTask.init "relatorio" 0 2) := by decide

/-- C4 as amended: an absent `priority` / `minutes_from_now` takes the
default (1 resp. 30); a fractional numeric value is truncated toward zero
(raising no error); a non-numeric value fails with a coercion error —
`ValueError` for an unparseable (ASCII) string, `TypeError` for `None` —
for either numeric parameter. -/
theorem c4_amended_defaults_truncation_and_errors :
    (∀ (title : String) (now : Int) (mfn : Option PyVal),
      TaskFactory.create_task now (some "priority") ⟨some title, none, mfn⟩ =
        .ok (PriorityTask.init title now 1)) ∧
    (∀ (title : String) (now : Int) (pr : Option PyVal),
      TaskFactory.create_task now (some "deadline") ⟨some title, pr, none⟩ =
        .ok (DeadlineTask.init title now 30)) ∧
    (∀ (title : String) (now : Int) (mfn : Option PyVal) (q : ℚ),
      TaskFactory.create_task now (some "priority") ⟨some title, some (.vfloat q), mfn⟩ =
        .ok (PriorityTask.init title now (specTrunc q))) ∧
    (∀ (title : String) (now : Int) (pr : Option PyVal) (q : ℚ),
      TaskFactory.create_task now (some "deadline") ⟨some title, pr, some (.vfloat q)⟩ =
        .ok (DeadlineTask.init title now (specTrunc q))) ∧
    (∀ (title : String) (now : Int) (mfn : Option PyVal) (s : String),
      (∀ ch ∈ s.data, ch.toNat < 128) → pyIntOfStr s = none →
      TaskFactory.create_task now (some "priority") ⟨some title, some (.vstr s), mfn⟩ =
        .error .valueError) ∧
    (∀ (title : String) (now : Int) (pr : Option PyVal) (s : String),
      (∀ ch ∈ s.data, ch.toNat < 128) → pyIntOfStr s = none →
      TaskFactory.create_task now (some "deadline") ⟨some title, pr, some (.vstr s)⟩ =
        .error .valueError) ∧
    (∀ (title : String) (now : Int) (mfn : Option PyVal),
      TaskFactory.create_task now (some "priority") ⟨some title, some .vnone, mfn⟩ =
        .error .typeError) ∧
    (∀ (title : String) (now : Int) (pr : Option PyVal),
      TaskFactory.create_task now (some "deadline") ⟨some title, pr, some .vnone⟩ =
        .error .typeError) := by
  have hp : pyLower "priority" = "priority" := by decide
  have hd : pyLower "deadline" = "deadline" := by decide
  refine ⟨fun title now mfn => ?_, fun title now pr => ?_, fun title now mfn q => ?_,
    fun title now pr q => ?_, fun title now mfn s _ hs => ?_, fun title now pr s _ hs => ?_,
    fun title now mfn => ?_, fun title now pr => ?_⟩ <;>
    simp [TaskFactory.create_task, hp, hd, Kwargs.getTitle, pyInt,
      tdiv_num_den_eq_specTrunc, *] <;> rfl

/-- Witness for C4 (amended) at concrete inputs. -/
theorem c4_witness :
    TaskFactory.create_task 3 (some "priority") ⟨some "a", none, none⟩ =
      .ok (PriorityTask.init "a" 3 1) ∧
    TaskFactory.create_task 3 (some "deadline") ⟨some "b", none, none⟩ =
      .ok (DeadlineTask.init "b" 3 30) ∧
    pyIntOfStr "abc" = none ∧
    TaskFactory.create_task 3 (some "priority") ⟨some "c", some (.vstr "abc"), none⟩ =
      .error .valueError ∧
    pyIntOfStr " 4.2 " = none ∧
    TaskFactory.create_task 3 (some "deadline") ⟨some "d", none, some (.vstr " 4.2 ")⟩ =
      .error .valueError ∧
    TaskFactory.create_task 3 (some "priority") ⟨some "e", some .vnone, none⟩ =
      .error .typeError ∧
    TaskFactory.create_task 3 (some "deadline") ⟨some "f", none, some .vnone⟩ =
      .error .typeError :=
  ⟨c4_amended_defaults_truncation_and_errors.1 "a" 3 none,
   c4_amended_defaults_truncation_and_errors.2.1 "b" 3 none,
   by decide,
   c4_amended_defaults_truncation_and_errors.2.2.2.2.1 "c" 3 none "abc"
     (by decide) (by decide),
   by decide,
   c4_amended_defaults_truncation_and_errors.2.2.2.2.2.1 "d" 3 none " 4.2 "
     (by decide) (by decide),
   c4_amended_defaults_truncation_and_errors.2.2.2.2.2.2.1 "e" 3 none,
   c4_amended_defaults_truncation_and_errors.2.2.2.2.2.2.2 "f" 3 none⟩

/-- C6: every strategy is stable — whenever the pair `[a, b]` occurs in
this order in the input and the two carry equal sort keys, the pair occurs
in this order in the output as well (in particular two `PriorityTask` of
equal priority keep their insertion order under the priority strategy). -/
theorem c6_sort_strategies_stable (a b : Task) (l : List Task)
    (hab : List.Sublist [a, b] l) :
    (priorityKey a = priorityKey b → List.Sublist [a, b] (PrioritySortStrategy.sort l)) ∧
    (deadlineKey a = deadlineKey b → List.Sublist [a, b] (DeadlineSortStrategy.sort l)) ∧
    (Task.created_at a = Task.created_at b →
      List.Sublist [a, b] (CreationSortStrategy.sort l)) ∧
    List.Sublist [a, b] (DefaultSortStrategy.sort l) := by
  refine ⟨fun h => ?_, fun h => ?_, fun h => ?_, hab⟩
  · exact List.pair_sublist_insertionSort (le_of_eq h.symm) hab
  · exact List.pair_sublist_insertionSort (le_of_eq h) hab
  · exact List.pair_sublist_insertionSort (le_of_eq h.symm) hab

/-- Witness for C6: two equal-priority tasks around a higher-priority one
keep their relative order. -/
theorem c6_witness :
    List.Sublist [PriorityTask.init "primeira" 0 2, PriorityTask.init "segunda" 1 2]
      [PriorityTask.init "primeira" 0 2, PriorityTask.init "alta" 2 5,
       PriorityTask.init "segunda" 1 2] ∧
    List.Sublist [PriorityTask.init "primeira" 0 2, PriorityTask.init "segunda" 1 2]
      (PrioritySortStrategy.sort
        [PriorityTask.init "primeira" 0 2, PriorityTask.init "alta" 2 5,
         PriorityTask.init "segunda" 1 2]) :=
  ⟨by decide,
   (c6_sort_strategies_stable (PriorityTask.init "primeira" 0 2)
      (PriorityTask.init "segunda" 1 2) _ (by decide)).1 rfl⟩

/-- C5, counterexample to the claim as stated: a `DeadlineTask` whose
deadline lies beyond the `datetime(2099, 12, 31)` sentinel (reachable with
`minutes_from_now = 68372641` from the epoch) is sorted after a
deadline-less `SimpleTask`, so a task lacking a deadline does not appear
after every task that has one. -/
theorem c5_counterexample_sentinel_overflow :
    ¬ deadlineOrderOk [DeadlineTask.init "urgente" 0 68372641, SimpleTask.init "livre" 0] := by
  intro h
  unfold deadlineOrderOk at h
  rw [show DeadlineSortStrategy.sort
        [DeadlineTask.init "urgente" 0 68372641, SimpleTask.init "livre" 0] =
      [SimpleTask.init "livre" 0, DeadlineTask.init "urgente" 0 68372641] by decide] at h
  obtain ⟨da, hda, -⟩ :=
    (List.pairwise_cons.mp h).1 _ (List.mem_cons_self _ _) (0 + 68372641 * usPerMinute) rfl
  simp [Task.deadlineVal, SimpleTask.init] at hda

/-- C5 as amended: provided every present deadline lies strictly before
the far-future sentinel `datetime(2099, 12, 31)`, the deadline strategy
places every deadline-less task after every deadline-carrying one and
lists deadlines in ascending order. -/
theorem c5_amended_deadline_sort_ordered (l : List Task)
    (h : ∀ t ∈ l, ∀ d, Task.deadlineVal t = some d → d < farFutureUs) :
    deadlineOrderOk l := by
  have hs : List.Pairwise deadlineRel (DeadlineSortStrategy.sort l) :=
    List.sorted_insertionSort deadlineRel l
  refine hs.imp_of_mem ?_
  intro a b ha hb hr db hdb
  have hb' : b ∈ l := by
    simpa [DeadlineSortStrategy.sort, List.mem_insertionSort] using hb
  have hkb : deadlineKey b = db := deadlineKey_of_some hdb
  cases hv : Task.deadlineVal a with
  | some da =>
    refine ⟨da, rfl, ?_⟩
    have hka : deadlineKey a = da := deadlineKey_of_some hv
    have : deadlineKey a ≤ deadlineKey b := hr
    omega
  | none =>
    exfalso
    have hka : deadlineKey a = farFutureUs := deadlineKey_of_none hv
    have hlt : db < farFutureUs := h b hb' db hdb
    have : deadlineKey a ≤ deadlineKey b := hr
    omega

/-- Witness for C5 (amended) on a concrete mixed list with ordinary
deadlines. -/
theorem c5_witness :
    (∀ t ∈ [DeadlineTask.init "a" 0 30, SimpleTask.init "b" 0, DeadlineTask.init "c" 0 10],
      ∀ d, Task.deadlineVal t = some d → d < farFutureUs) ∧
    deadlineOrderOk
      [DeadlineTask.init "a" 0 30, SimpleTask.init "b" 0, DeadlineTask.init "c" 0 10] := by
  have hh : ∀ t ∈ [DeadlineTask.init "a" 0 30, SimpleTask.init "b" 0,
      DeadlineTask.init "c" 0 10], ∀ d, Task.deadlineVal t = some d → d < farFutureUs := by
    intro t ht d hd
    fin_cases ht <;> simp [Task.deadlineVal, DeadlineTask.init, SimpleTask.init] at hd <;>
      simp [← hd, farFutureUs, usPerMinute]
  exact ⟨hh, c5_amended_deadline_sort_ordered _ hh⟩

/-- C8: from a fresh manager, every successful `deploy_activity` appends
the created task at the end of the stored sequence, and after `N`
successful deploys `list_tasks` reports a count of `N` (under any sort
key). -/
theorem c8_repository_growth :
    (∀ (repo : List Task) (now : Int) (req : Request) (d : DeployResponse) (r : List Task),
      TaskTrackFacade.deploy_activity repo now req = (.ok d, r) →
      ∃ t, r = repo ++ [t] ∧ d.created_task = t.to_dict) ∧
    (∀ (reqs : List (Int × Request)) (repo' : List Task),
      deployAll [] reqs = .ok repo' →
      ∀ s, (TaskTrackFacade.list_tasks repo' s).count = reqs.length) := by
  constructor
  · intro repo now req d r h
    exact deploy_activity_ok h
  · intro reqs repo' h s
    have hlen : repo'.length = reqs.length := by
      simpa using deployAll_length reqs [] repo' h
    simp [TaskTrackFacade.list_tasks, TaskRepository.get_all, Strategy.sort_length, hlen]

/-- Witness for C8: two deploys of the default request from the empty
repository yield a count of 2, and one deploy appends one task. -/
theorem c8_witness :
    (∃ t, (TaskTrackFacade.deploy_activity [] 0 ⟨none, none, none, none⟩).2 = [] ++ [t]) ∧
    (TaskTrackFacade.list_tasks
      [SimpleTask.init "Tarefa inicial do plano" 0, SimpleTask.init "Tarefa inicial do plano" 1]
      "default").count = 2 := by
  constructor
  · obtain ⟨t, ht, -⟩ := c8_repository_growth.1 [] 0 ⟨none, none, none, none⟩ _ _ rfl
    exact ⟨t, ht⟩
  · exact c8_repository_growth.2 [(0, ⟨none, none, none, none⟩), (1, ⟨none, none, none, none⟩)]
      _ rfl "default"

/-- C9: a strategy's sort reads its input list object and allocates a
fresh one — every previously allocated list object (the input included) is
unchanged, the returned reference is distinct from the input's, and the
new object holds the strategy's ordering of the input's tasks (a
permutation of them). -/
theorem c9_sort_does_not_mutate_input (st : Strategy) (h : Heap) (r : Nat)
    (hr : r < h.length) :
    (∀ i, i < h.length → ((st.sortAlloc h r).1)[i]? = h[i]?) ∧
    (st.sortAlloc h r).2 ≠ r ∧
    Heap.read (st.sortAlloc h r).1 (st.sortAlloc h r).2 = st.sort (Heap.read h r) ∧
    List.Perm (st.sort (Heap.read h r)) (Heap.read h r) := by
  refine ⟨?_, ?_, ?_, Strategy.sort_perm st _⟩
  · intro i hi
    simp [Strategy.sortAlloc, Heap.alloc, List.getElem?_append_left hi]
  · simp only [Strategy.sortAlloc, Heap.alloc]
    omega
  · simp [Strategy.sortAlloc, Heap.alloc, Heap.read, List.getD]

/-- Witness for C9 on a one-object heap under the priority strategy. -/
theorem c9_witness :
    0 < ([[PriorityTask.init "a" 0 1, PriorityTask.init "b" 1 5]] : Heap).length ∧
    (Strategy.sortAlloc .priority [[PriorityTask.init "a" 0 1, PriorityTask.init "b" 1 5]] 0).2 ≠ 0 ∧
    Heap.read (Strategy.sortAlloc .priority
        [[PriorityTask.init "a" 0 1, PriorityTask.init "b" 1 5]] 0).1
      (Strategy.sortAlloc .priority [[PriorityTask.init "a" 0 1, PriorityTask.init "b" 1 5]] 0).2 =
      Strategy.sort .priority
        (Heap.read [[PriorityTask.init "a" 0 1, PriorityTask.init "b" 1 5]] 0) :=
  ⟨by decide,
   (c9_sort_does_not_mutate_input .priority _ 0 (by decide)).2.1,
   (c9_sort_does_not_mutate_input .priority _ 0 (by decide)).2.2.1⟩

/-- C10: when the request's `task_type` resolves to `SimpleTask` (the
value "simple" or any unrecognized value, case-insensitively), any
supplied `priority` / `minutes_from_now` are ignored: the deploy succeeds
and the created task's serialization has exactly the keys `type`, `title`,
`created_at`, `done` — no `priority` or `deadline` key. -/
theorem c10_simple_deploy_ignores_numeric_params
    (repo : List Task) (now : Int) (req : Request)
    (h : pyLower (req.task_type.getD "simple") ∉ ["priority", "deadline"]) :
    ∃ d : DeployResponse,
      (TaskTrackFacade.deploy_activity repo now req).1 = .ok d ∧
      d.created_task.map Prod.fst = ["type", "title", "created_at", "done"] ∧
      "priority" ∉ d.created_task.map Prod.fst ∧
      "deadline" ∉ d.created_task.map Prod.fst := by
  obtain ⟨h1, h2⟩ : pyLower (req.task_type.getD "simple") ≠ "priority" ∧
      pyLower (req.task_type.getD "simple") ≠ "deadline" := by simpa using h
  refine ⟨⟨"ok", "Deploy realizado via Facade + Factory Method.",
    (SimpleTask.init (req.title.getD "Tarefa inicial do plano") now).to_dict⟩, ?_, ?_, ?_, ?_⟩
  · by_cases hs : pyLower (req.task_type.getD "simple") = "simple" <;>
      simp [TaskTrackFacade.deploy_activity, TaskManager.create_task, TaskFactory.create_task,
        TaskRepository.add, Kwargs.getTitle, Except.map, hs, h1, h2]
  all_goals simp [Task.to_dict, Task.baseDict, SimpleTask.init]

/-- Witness for C10 at an unrecognized `task_type` with numeric parameters
supplied. -/
theorem c10_witness :
    pyLower ((some "URGENTE" : Option String).getD "simple") ∉
      (["priority", "deadline"] : List String) ∧
    ∃ d : DeployResponse,
      (TaskTrackFacade.deploy_activity [] 3
        ⟨some "Escrever", some "URGENTE", some (.vint 9), some (.vint 5)⟩).1 = .ok d ∧
      d.created_task.map Prod.fst = ["type", "title", "created_at", "done"] ∧
      "priority" ∉ d.created_task.map Prod.fst ∧
      "deadline" ∉ d.created_task.map Prod.fst :=
  ⟨by decide,
   c10_simple_deploy_ignores_numeric_params [] 3
     ⟨some "Escrever", some "URGENTE", some (.vint 9), some (.vint 5)⟩ (by decide)⟩

end TaskTrack
